import Mathlib

/-!
Verification of the coroot-operator reconciliation core against its
natural-language specification.

The definitions below are a shallow embedding of the controller code:
  * `repoCreateOrUpdate` embeds `CorootReconciler.CreateOrUpdate`
    (controller file, lines 175-203) together with the semantics of the
    library call `controllerutil.CreateOrUpdate` it delegates to
    (get; if absent mutate the zero object and create; otherwise mutate the
    fetched object and update only when it changed).
  * `CreateOrUpdateSecret` embeds the secret provisioner (lines 205-227).
  * `statefulSetMutate` embeds the mutate closure of
    `CreateOrUpdateStatefulSet` (lines 243-251), parametric in `MergeSpecs`.
  * `reconcileNotFound` embeds the "instance not found" branch of
    `Reconcile` (lines 86-103).
  * `legacyDeploymentStep` embeds the `deploymentDeleted` guard
    (lines 134-137).
  * `reconcileStatusReturn` embeds the status derivation and returned
    `(ctrl.Result, error)` pair at the end of a full reconcile pass (from
    the controller document embedded in config/manager/manager.yaml,
    lines 227-234, which implements the status machinery).
  * `corootStatefulSetReplicas` and `corootPVCNames` embed the replica
    defaulting of `corootStatefulSet` and `corootPVCs` (templating file,
    lines 51-84 and 225-228), including Go's `int32` truncation.

Machine integers are modelled as `Int` with explicit two's-complement
truncation where the code converts; Kubernetes API outcomes are explicit
(`ApiError`), and every definition is executable.
-/

namespace CorootOperator

/-- Kubernetes API call failures, as the controller distinguishes them:
`IsNotFound` is tested explicitly, conflicts and other transport failures
are only ever handled generically. -/
inductive ApiError
  | notFound
  | conflict
  | transport
deriving DecidableEq, Repr

/-- A live or desired Kubernetes object: a controller owner reference
(the name of the owning Coroot instance, if any) plus a kind-specific
payload `spec`.  Every mutate closure in the controller touches only the
payload, never the owner reference. -/
structure KObj (σ : Type) where
  ownerRef : Option String
  spec : σ
deriving DecidableEq, Repr

/-- `controllerutil.SetControllerReference cr obj`: make `cr` the
controller owner of `obj` when no other controller owns it; when a
different controller already owns the object the library refuses with an
`AlreadyOwnedError` (discarded by the caller via `_ =`) and the object
keeps its foreign owner, with no reference to `cr` attached. -/
def setControllerReference (cr : String) (obj : KObj σ) : KObj σ :=
  if obj.ownerRef = none ∨ obj.ownerRef = some cr then
    { obj with ownerRef := some cr }
  else obj

/-- `controllerutil.RemoveControllerReference cr obj`: drop the owner
reference if and only if it points at `cr`. -/
def removeControllerReference (cr : String) (obj : KObj σ) : KObj σ :=
  if obj.ownerRef = some cr then { obj with ownerRef := none } else obj

/-- The mutation callback `f` built inside `CorootReconciler.CreateOrUpdate`
(lines 184-194): adjust the owner reference according to `retain`, then run
the caller's mutate function on the payload. -/
def ownerMutate (cr : String) (retain : Bool) (mutateF : σ → σ) (obj : KObj σ) :
    KObj σ :=
  let o := if retain then removeControllerReference cr obj
           else setControllerReference cr obj
  { o with spec := mutateF o.spec }

/-- `controllerutil.OperationResult`: what the library reports back. -/
inductive OperationResult
  | unchanged
  | created
  | updated
deriving DecidableEq, Repr

/-- Observable outcome of one `CorootReconciler.CreateOrUpdate` call. -/
inductive ApplyOutcome
  | deleted (ok : Bool)
  | op (res : OperationResult)
  | failed (e : ApiError)
deriving DecidableEq, Repr

/-- The client's behaviour during one apply call: the fetched live object
(`none` models a NotFound get) and the error, if any, each write would
return. -/
structure ClientEnv (σ : Type) where
  live : Option (KObj σ)
  createErr : Option ApiError
  updateErr : Option ApiError
  deleteErr : Option ApiError
deriving DecidableEq, Repr

/-- Trace of one `CorootReconciler.CreateOrUpdate` call: its outcome, the
object persisted in the cluster afterwards, the log lines it emitted, and
how many API calls of each kind it issued.  The Go function returns
nothing, so no error ever propagates to the caller. -/
structure ApplyResult (σ : Type) where
  outcome : ApplyOutcome
  stored : Option (KObj σ)
  logs : List String
  gets : Nat
  creates : Nat
  updates : Nat
  deletes : Nat
deriving DecidableEq, Repr

/-- `CorootReconciler.CreateOrUpdate` (lines 175-203).  The delete branch
issues one Delete and logs "deleted" only on success.  Otherwise
`controllerutil.CreateOrUpdate` runs: one Get; on NotFound the zero object
is mutated and created; on a fetched object `l` the mutation result `m` is
compared with `l` and an Update is issued only when they differ.  Errors
are logged ("failed to create or update") and swallowed; a non-trivial
operation result is logged. -/
def repoCreateOrUpdate [DecidableEq σ] (cr : String) (del retain : Bool)
    (mutateF : σ → σ) (zero : KObj σ) (env : ClientEnv σ) : ApplyResult σ :=
  if del then
    { outcome := .deleted env.deleteErr.isNone
      stored := if env.deleteErr.isNone then none else env.live
      logs := if env.deleteErr.isNone then ["deleted"] else []
      gets := 0, creates := 0, updates := 0, deletes := 1 }
  else
    match env.live with
    | none =>
      let obj := ownerMutate cr retain mutateF zero
      match env.createErr with
      | some e =>
        { outcome := .failed e, stored := none
          logs := ["failed to create or update"]
          gets := 1, creates := 1, updates := 0, deletes := 0 }
      | none =>
        { outcome := .op .created, stored := some obj, logs := ["created"]
          gets := 1, creates := 1, updates := 0, deletes := 0 }
    | some l =>
      let m := ownerMutate cr retain mutateF l
      if m = l then
        { outcome := .op .unchanged, stored := some l, logs := []
          gets := 1, creates := 0, updates := 0, deletes := 0 }
      else
        match env.updateErr with
        | some e =>
          { outcome := .failed e, stored := some l
            logs := ["failed to create or update"]
            gets := 1, creates := 0, updates := 1, deletes := 0 }
        | none =>
          { outcome := .op .updated, stored := some m, logs := ["updated"]
            gets := 1, creates := 0, updates := 1, deletes := 0 }

/-- The `Data` field of a Kubernetes Secret, as the controller sees it:
`none` models a nil Go map, otherwise an association list from key to
stored value. -/
def SecretData : Type := List (String × String)

instance : DecidableEq SecretData := inferInstanceAs (DecidableEq (List (String × String)))

/-- The secret mutate closure (lines 214-225), storage effect: a nil map
is replaced by an empty one; if `key` is present the data is left
untouched, otherwise `fresh` (the value `RandomString(length)` returned)
is stored under `key`. -/
def secretMutateData (key fresh : String) (d : Option SecretData) :
    Option SecretData :=
  let d0 := d.getD []
  match d0.lookup key with
  | some _ => some d0
  | none => some ((key, fresh) :: d0)

/-- The secret mutate closure (lines 214-225), returned value: the stored
value if `key` is present, the freshly generated one otherwise. -/
def secretReturn (key fresh : String) (d : Option SecretData) : String :=
  ((d.getD []).lookup key).getD fresh

/-- Data of the secret the mutate closure starts from: the fetched live
secret's data, or a nil map when the secret does not exist yet. -/
def fetchedSecretData (live : Option (KObj (Option SecretData))) :
    Option SecretData :=
  match live with
  | some o => o.spec
  | none => none

/-- `CorootReconciler.CreateOrUpdateSecret` (lines 205-227): apply the
secret through the engine (delete=false, retain=false) with the secret
mutate closure, and return the value the closure captured.  `fresh` stands
for the string `RandomString(length)` would produce on this call. -/
def CreateOrUpdateSecret (cr : String) (env : ClientEnv (Option SecretData))
    (key fresh : String) : ApplyResult (Option SecretData) × String :=
  (repoCreateOrUpdate cr false false (secretMutateData key fresh)
      ⟨none, none⟩ env,
   secretReturn key fresh (fetchedSecretData env.live))

/-- `CorootReconciler.CreateOrUpdateClusterRole` (lines 289-295): snapshot
the desired rules and apply with retain=true, the mutate closure
overwriting the rules wholesale. -/
def CreateOrUpdateClusterRole [DecidableEq ρ] (cr : String) (rules : ρ)
    (zero : KObj ρ) (env : ClientEnv ρ) : ApplyResult ρ :=
  repoCreateOrUpdate cr false true (fun _ => rules) zero env

/-- `CorootReconciler.CreateOrUpdateClusterRoleBinding` (lines 297-299):
apply with retain=true and a nil mutate function. -/
def CreateOrUpdateClusterRoleBinding [DecidableEq β] (cr : String)
    (zero : KObj β) (env : ClientEnv β) : ApplyResult β :=
  repoCreateOrUpdate cr false true (fun s => s) zero env

/-- A StatefulSet spec, split into the volume claim templates and the
remaining fields. -/
structure SSSpec (τ ρ : Type) where
  volumeClaimTemplates : τ
  rest : ρ
deriving DecidableEq, Repr

/-- The mutate closure of `CreateOrUpdateStatefulSet` (lines 243-251),
parametric in the `MergeSpecs` merge function (`merge fetched desired`
merges the desired spec into the fetched one): snapshot the fetched
object's volume claim templates, merge, then restore the snapshot. -/
def statefulSetMutate (merge : SSSpec τ ρ → SSSpec τ ρ → SSSpec τ ρ)
    (desired : SSSpec τ ρ) (fetched : SSSpec τ ρ) : SSSpec τ ρ :=
  let volumeClaimTemplates := fetched.volumeClaimTemplates
  let merged := merge fetched desired
  { merged with volumeClaimTemplates := volumeClaimTemplates }

/-- `ctrl.Result`: whether and after which delay the pass asks to be
invoked again. -/
structure CtrlResult where
  requeue : Bool
  requeueAfterSeconds : Nat
deriving DecidableEq, Repr

/-- The zero `ctrl.Result{}`: no re-check scheduled. -/
def zeroResult : CtrlResult := ⟨false, 0⟩

/-- The "instance not found" branch of `Reconcile` (lines 86-103): under
the registry lock the key is removed (the membership test guards only the
log line), and when the registry is empty afterwards the cluster-agent
ClusterRole and ClusterRoleBinding get best-effort deletes whose results
(`deleteResults`) are discarded via `_ =`.  The branch always returns
`(ctrl.Result{}, nil)`.  The second component of the result records
whether the shared-resource deletes were issued. -/
def reconcileNotFound (instances : Finset String) (req : String)
    (deleteResults : Option ApiError × Option ApiError) :
    Finset String × Bool × CtrlResult :=
  let instances' := instances.erase req
  let _ := deleteResults
  (instances', decide (instances' = ∅), zeroResult)

/-- A sequence of "instance not found" passes, one per key, threading the
registry and collecting the shared-delete flags. -/
def reconcileNotFoundRun (instances : Finset String) :
    List String → Finset String × List Bool
  | [] => (instances, [])
  | k :: ks =>
    let s := reconcileNotFound instances k (none, none)
    let rest := reconcileNotFoundRun s.1 ks
    (rest.1, s.2.1 :: rest.2)

/-- `int32(n)` in Go: truncate to the low 32 bits, two's complement. -/
def toInt32 (n : Int) : Int :=
  let m := n % (2 ^ 32)
  if m < 2 ^ 31 then m else m - 2 ^ 32

/-- Replica defaulting of `corootStatefulSet` (templating file, lines
225-228): convert the configured `Replicas` to `int32`, then default every
non-positive value to 1. -/
def corootStatefulSetReplicas (replicas : Int) : Int :=
  let r := toInt32 replicas
  if r ≤ 0 then 1 else r

/-- The claim names produced by `corootPVCs` (templating file, lines
51-84): only the exact value 0 defaults to one claim; the loop
`for replica := 0; replica < replicas; replica++` runs zero times for
every negative count. -/
def corootPVCNames (name : String) (replicas : Int) : List String :=
  let r := if replicas = 0 then 1 else replicas
  (List.range r.toNat).map (fun i => "data-" ++ name ++ "-coroot-" ++ toString i)

/-- The per-instance status projection `{state, errors}` (the
`cr.Status.Status` and `cr.Status.Errors` fields). -/
structure CorootStatus where
  state : String
  errors : List String
deriving DecidableEq, Repr

/-- The end of a full (non-agents-only) reconcile pass, from the
controller document embedded in src/config/manager/manager.yaml
(lines 227-234): when validation produced errors the status is set to
Misconfigured with those errors attached and the pass returns
`ctrl.Result{RequeueAfter: time.Minute}` with nil error; otherwise the
status is set to OK with the errors cleared and the pass returns the zero
result with nil error.  The components are: the written status, the
returned `ctrl.Result` (requeue delay in seconds), and the returned
error. -/
def reconcileStatusReturn (validationErrors : List String) :
    CorootStatus × CtrlResult × Option ApiError :=
  if validationErrors.length > 0 then
    (⟨"Misconfigured", validationErrors⟩, ⟨false, 60⟩, none)
  else
    (⟨"OK", []⟩, zeroResult, none)

/-- Pass kinds, as far as the legacy-Deployment guard is concerned: only a
full pass (fetch succeeded, not agents-only) reaches lines 134-137. -/
inductive PassKind
  | notFound
  | fetchError
  | agentsOnly
  | full
deriving DecidableEq, Repr

/-- Name of the legacy coroot Deployment `corootDeployment` targets
(templating file, lines 131-141). -/
def corootDeploymentName (inst : String) : String := inst ++ "-coroot"

/-- The `deploymentDeleted` guard (lines 134-137): on a full pass with the
process-wide flag still false, delete the current instance's legacy
Deployment and set the flag; every other pass leaves both alone.  The
second component lists the names of the legacy Deployments deleted during
this pass. -/
def legacyDeploymentStep (deploymentDeleted : Bool) (inst : String)
    (k : PassKind) : Bool × List String :=
  match k with
  | .full =>
    if deploymentDeleted then (true, [])
    else (true, [corootDeploymentName inst])
  | _ => (deploymentDeleted, [])

/-- A whole process lifetime: a sequence of reconcile passes (instance
name and kind) threading the process-wide `deploymentDeleted` flag, with
all legacy-Deployment deletes collected in order. -/
def legacyDeploymentRun (deploymentDeleted : Bool) :
    List (String × PassKind) → Bool × List String
  | [] => (deploymentDeleted, [])
  | (i, k) :: ps =>
    let s := legacyDeploymentStep deploymentDeleted i k
    let rest := legacyDeploymentRun s.1 ps
    (rest.1, s.2 ++ rest.2)

/-- The instance name of the first full pass in a pass sequence, if any. -/
def firstFullPass : List (String × PassKind) → Option String
  | [] => none
  | (i, k) :: ps => if k = .full then some i else firstFullPass ps

/-! ## Helper lemmas about the apply engine -/

theorem ownerMutate_spec (cr : String) (retain : Bool) (f : σ → σ) (x : KObj σ) :
    (ownerMutate cr retain f x).spec = f x.spec := by
  obtain ⟨ow, sp⟩ := x
  cases retain <;> rcases ow with _ | o
  · simp [ownerMutate, setControllerReference]
  · by_cases ho : o = cr <;>
      simp [ownerMutate, setControllerReference, ho]
  · simp [ownerMutate, removeControllerReference]
  · by_cases ho : o = cr <;>
      simp [ownerMutate, removeControllerReference, ho]

/-- When the live object is not already controlled by a different
instance, a retain=false apply attaches the controller reference. -/
theorem ownerMutate_ownerRef_of_not_retain (cr : String) (f : σ → σ) (x : KObj σ)
    (hx : x.ownerRef = none ∨ x.ownerRef = some cr) :
    (ownerMutate cr false f x).ownerRef = some cr := by
  rcases hx with h | h <;>
    simp [ownerMutate, setControllerReference, h]

theorem ownerMutate_ownerRef_of_retain (cr : String) (f : σ → σ) (x : KObj σ) :
    (ownerMutate cr true f x).ownerRef ≠ some cr := by
  by_cases h : x.ownerRef = some cr <;>
    simp [ownerMutate, removeControllerReference, h]

theorem ownerMutate_idem (cr : String) (retain : Bool) (f : σ → σ) (x : KObj σ)
    (hid : f (f x.spec) = f x.spec) :
    ownerMutate cr retain f (ownerMutate cr retain f x) = ownerMutate cr retain f x := by
  obtain ⟨ow, sp⟩ := x
  simp only at hid
  cases retain <;> rcases ow with _ | o
  · simp [ownerMutate, setControllerReference, hid]
  · by_cases ho : o = cr <;>
      simp [ownerMutate, setControllerReference, ho, hid]
  · simp [ownerMutate, removeControllerReference, hid]
  · by_cases ho : o = cr <;>
      simp [ownerMutate, removeControllerReference, ho, hid]

/-- On a successful non-delete apply, the object persisted in the cluster
is the engine's mutation callback applied to the zero (templated) object
or to the fetched live object. -/
theorem stored_is_ownerMutate [DecidableEq σ] (cr : String) (retain : Bool)
    (f : σ → σ) (zero : KObj σ) (live : Option (KObj σ)) (de : Option ApiError)
    (o : KObj σ)
    (ho : (repoCreateOrUpdate cr false retain f zero ⟨live, none, none, de⟩).stored
      = some o) :
    ∃ x, (x = zero ∨ live = some x) ∧ o = ownerMutate cr retain f x := by
  cases live with
  | none =>
    simp [repoCreateOrUpdate] at ho
    exact ⟨zero, Or.inl rfl, ho.symm⟩
  | some l =>
    by_cases hm : ownerMutate cr retain f l = l
    · simp [repoCreateOrUpdate, hm] at ho
      exact ⟨l, Or.inr rfl, by rw [hm, ← ho]⟩
    · simp [repoCreateOrUpdate, hm] at ho
      exact ⟨l, Or.inr rfl, ho.symm⟩

theorem stringAppend_assoc (a b c : String) : a ++ b ++ c = a ++ (b ++ c) := by
  apply String.ext
  simp [String.data_append, List.append_assoc]

/-- Once the process-wide flag is set, no later pass deletes a legacy
Deployment. -/
theorem legacyDeploymentRun_true_no_deletes (ps : List (String × PassKind)) :
    (legacyDeploymentRun true ps).2 = [] := by
  induction ps with
  | nil => rfl
  | cons p ps ih =>
    obtain ⟨i, k⟩ := p
    cases k <;> simp [legacyDeploymentRun, legacyDeploymentStep, ih]

/-- One secret pass persists the exact value it returns under the
requested key, whatever the fetched state was. -/
theorem secret_pass_stores_returned (cr key fresh : String)
    (L : Option (KObj (Option SecretData))) :
    ∃ d1,
      ((CreateOrUpdateSecret cr ⟨L, none, none, none⟩ key fresh).1.stored.map KObj.spec)
        = some (some d1)
      ∧ d1.lookup key
        = some ((CreateOrUpdateSecret cr ⟨L, none, none, none⟩ key fresh).2) := by
  cases L with
  | none =>
    refine ⟨[(key, fresh)], ?_, ?_⟩
    · simp [CreateOrUpdateSecret, repoCreateOrUpdate, ownerMutate_spec,
        secretMutateData]
    · simp [CreateOrUpdateSecret, secretReturn, fetchedSecretData, List.lookup]
  | some o =>
    obtain ⟨own0, dd⟩ := o
    cases dd with
    | none =>
      have hm : ¬(ownerMutate cr false (secretMutateData key fresh) ⟨own0, none⟩
          = ⟨own0, (none : Option SecretData)⟩) := by
        intro h
        have hs := congrArg KObj.spec h
        rw [ownerMutate_spec] at hs
        simp [secretMutateData] at hs
      refine ⟨[(key, fresh)], ?_, ?_⟩
      · simp [CreateOrUpdateSecret, repoCreateOrUpdate, hm, ownerMutate_spec,
          secretMutateData]
      · simp [CreateOrUpdateSecret, secretReturn, fetchedSecretData, List.lookup]
    | some d0 =>
      cases hl : d0.lookup key with
      | some w =>
        have hmut : secretMutateData key fresh (some d0) = some d0 := by
          simp [secretMutateData, hl]
        have hval : (CreateOrUpdateSecret cr
            ⟨some ⟨own0, some d0⟩, none, none, none⟩ key fresh).2 = w := by
          simp [CreateOrUpdateSecret, secretReturn, fetchedSecretData, hl]
        refine ⟨d0, ?_, by rw [hval, hl]⟩
        by_cases hm : ownerMutate cr false (secretMutateData key fresh) ⟨own0, some d0⟩
            = ⟨own0, some d0⟩
        · simp [CreateOrUpdateSecret, repoCreateOrUpdate, hm]
        · simp [CreateOrUpdateSecret, repoCreateOrUpdate, hm, ownerMutate_spec, hmut]
      | none =>
        have hmut : secretMutateData key fresh (some d0)
            = some ((key, fresh) :: d0) := by
          simp [secretMutateData, hl]
        have hm : ¬(ownerMutate cr false (secretMutateData key fresh) ⟨own0, some d0⟩
            = ⟨own0, some d0⟩) := by
          intro h
          have hs := congrArg KObj.spec h
          rw [ownerMutate_spec] at hs
          simp [hmut] at hs
        refine ⟨(key, fresh) :: d0, ?_, ?_⟩
        · simp [CreateOrUpdateSecret, repoCreateOrUpdate, hm, ownerMutate_spec, hmut]
        · simp [CreateOrUpdateSecret, secretReturn, fetchedSecretData, hl, List.lookup]

/-! ## Claim theorems -/

/-- C10, counterexample: the two defaulting rules are claimed to give one
StatefulSet replica for every `Replicas` value less than or equal to zero,
but `corootStatefulSet` first converts the field with `int32(...)`:
at `Replicas = -4294967291 = -2^32 + 5` the truncation yields `5`, so the
StatefulSet gets 5 replicas, not 1 - while `corootPVCs`, which loops over
the untruncated value, still pre-creates no claim. -/
theorem corootReplicas_truncation_counterexample :
    corootStatefulSetReplicas (-4294967291) = 5
    ∧ ¬(corootStatefulSetReplicas (-4294967291) = 1)
    ∧ corootPVCNames "example" (-4294967291) = [] := by
  refine ⟨by decide, by decide, by decide⟩

/-- C10, amended: for every `Replicas` value in `[-2^31, 0)` (and for `0`)
`corootStatefulSet` defaults the replica count to 1, while `corootPVCs`
defaults only the exact value `0` to one claim and yields no claim for any
negative value - so a negative `Replicas` no smaller than `-2^31` gives one
StatefulSet replica but zero pre-created storage claims.  Below `-2^31`
the `int32` truncation can produce other replica counts. -/
theorem corootReplicas_defaulting_disagreement (name : String) (n : Int)
    (h1 : -(2 ^ 31) ≤ n) (h2 : n < 0) :
    corootStatefulSetReplicas n = 1
    ∧ corootPVCNames name n = []
    ∧ corootStatefulSetReplicas 0 = 1
    ∧ corootPVCNames name 0 = ["data-" ++ name ++ "-coroot-0"] := by
  refine ⟨?_, ?_, by decide, ?_⟩
  · simp only [corootStatefulSetReplicas, toInt32]
    rw [if_neg (show ¬(n % 2 ^ 32 < 2 ^ 31) by omega)]
    rw [if_pos (show n % 2 ^ 32 - 2 ^ 32 ≤ 0 by omega)]
  · have hr : ¬(n = 0) := by omega
    simp [corootPVCNames, hr, Int.toNat_of_nonpos (le_of_lt h2)]
  · simp only [corootPVCNames]
    norm_num [List.range_succ]
    rw [stringAppend_assoc]
    congr 1

/-- Witness for C10 at `name = "example"`, `n = -5`. -/
theorem corootReplicas_defaulting_disagreement_witness :
    corootStatefulSetReplicas (-5) = 1
    ∧ corootPVCNames "example" (-5) = []
    ∧ corootStatefulSetReplicas 0 = 1
    ∧ corootPVCNames "example" 0 = ["data-" ++ "example" ++ "-coroot-0"] :=
  corootReplicas_defaulting_disagreement "example" (-5) (by decide) (by decide)

/-- C9: across one process lifetime (a sequence of reconcile passes
threading the process-wide `deploymentDeleted` flag, initially false), the
legacy coroot Deployment delete is issued exactly for the first full pass,
for that pass's instance (`<instance>-coroot`); in particular it is
attempted at most once in total, and passes of every other instance never
delete that instance's legacy Deployment. -/
theorem legacyDeployment_deleted_once (ps : List (String × PassKind)) :
    (legacyDeploymentRun false ps).2
      = ((firstFullPass ps).map corootDeploymentName).toList
    ∧ (legacyDeploymentRun false ps).2.length ≤ 1 := by
  have hrun : (legacyDeploymentRun false ps).2
      = ((firstFullPass ps).map corootDeploymentName).toList := by
    induction ps with
    | nil => rfl
    | cons p ps ih =>
      obtain ⟨i, k⟩ := p
      cases k with
      | full =>
        simp [legacyDeploymentRun, legacyDeploymentStep, firstFullPass,
          legacyDeploymentRun_true_no_deletes]
      | notFound =>
        simp [legacyDeploymentRun, legacyDeploymentStep, firstFullPass, ih]
      | fetchError =>
        simp [legacyDeploymentRun, legacyDeploymentStep, firstFullPass, ih]
      | agentsOnly =>
        simp [legacyDeploymentRun, legacyDeploymentStep, firstFullPass, ih]
  refine ⟨hrun, ?_⟩
  rw [hrun]
  cases firstFullPass ps <;> simp

/-- C7: for every full (non-agents-only) reconcile pass: if validation
produced one or more errors the instance's status is set to Misconfigured
with those errors attached and the pass's returned result schedules a
one-minute re-check with nil error; if validation produced no errors the
status is set to OK with the errors cleared and the returned result
schedules no re-check. -/
theorem reconcile_status_and_requeue (errs : List String) (hne : ¬(errs = [])) :
    (reconcileStatusReturn errs).1 = ⟨"Misconfigured", errs⟩
    ∧ (reconcileStatusReturn errs).2.1 = ⟨false, 60⟩
    ∧ (reconcileStatusReturn errs).2.2 = none
    ∧ (reconcileStatusReturn []).1 = ⟨"OK", []⟩
    ∧ (reconcileStatusReturn []).2.1 = zeroResult
    ∧ (reconcileStatusReturn []).2.2 = none := by
  have hlen : errs.length > 0 := List.length_pos.mpr hne
  simp [reconcileStatusReturn, hlen]

/-- Witness for C7 at a concrete validation error. -/
theorem reconcile_status_and_requeue_witness :
    (reconcileStatusReturn ["storage size is invalid"]).1
      = ⟨"Misconfigured", ["storage size is invalid"]⟩
    ∧ (reconcileStatusReturn ["storage size is invalid"]).2.1 = ⟨false, 60⟩
    ∧ (reconcileStatusReturn ["storage size is invalid"]).2.2 = none
    ∧ (reconcileStatusReturn []).1 = ⟨"OK", []⟩
    ∧ (reconcileStatusReturn []).2.1 = zeroResult
    ∧ (reconcileStatusReturn []).2.2 = none :=
  reconcile_status_and_requeue ["storage size is invalid"] (by decide)

/-- C6, counterexample: the claim says a conflict on update is retried
once (a second fetch and a second merged update) within the same pass, but
the engine issues exactly one Get and one Update, logs the failure and
gives up: with a client whose Update reports a conflict, the call trace
shows one get and one update, not two. -/
theorem conflict_retry_counterexample :
    (repoCreateOrUpdate "c" false false (fun _ => 1) (⟨none, 0⟩ : KObj Nat)
        ⟨some ⟨none, 0⟩, none, some .conflict, none⟩).gets = 1
    ∧ (repoCreateOrUpdate "c" false false (fun _ => 1) (⟨none, 0⟩ : KObj Nat)
        ⟨some ⟨none, 0⟩, none, some .conflict, none⟩).updates = 1
    ∧ ¬((repoCreateOrUpdate "c" false false (fun _ => 1) (⟨none, 0⟩ : KObj Nat)
        ⟨some ⟨none, 0⟩, none, some .conflict, none⟩).updates = 2)
    ∧ (repoCreateOrUpdate "c" false false (fun _ => 1) (⟨none, 0⟩ : KObj Nat)
        ⟨some ⟨none, 0⟩, none, some .conflict, none⟩).logs
      = ["failed to create or update"] := by
  refine ⟨by decide, by decide, by decide, by decide⟩

/-- C6, amended: a conflict on update is not retried within the pass: the
engine performs exactly one get and one update attempt, logs the failure
like any other create-or-update error, leaves the live object unchanged,
and the merge is re-attempted only when a later pass runs. -/
theorem conflict_handled_without_retry [DecidableEq σ] (cr : String)
    (retain : Bool) (f : σ → σ) (l zero : KObj σ)
    (h : ¬(ownerMutate cr retain f l = l)) :
    repoCreateOrUpdate cr false retain f zero ⟨some l, none, some .conflict, none⟩
      = ⟨.failed .conflict, some l, ["failed to create or update"], 1, 0, 1, 0⟩ := by
  simp [repoCreateOrUpdate, h]

/-- Witness for C6 at a concrete conflicting update. -/
theorem conflict_handled_without_retry_witness :
    repoCreateOrUpdate "c" false false (fun _ => 1) (⟨none, 0⟩ : KObj Nat)
        ⟨some ⟨none, 0⟩, none, some .conflict, none⟩
      = ⟨.failed .conflict, some ⟨none, 0⟩, ["failed to create or update"], 1, 0, 1, 0⟩ :=
  conflict_handled_without_retry "c" false (fun _ => 1) ⟨none, 0⟩ ⟨none, 0⟩ (by decide)

/-- C8, counterexample: the claim says a transport error on the delete
path is logged and reported; in the code the delete branch logs only on
success (`err == nil`) and returns nothing, so on a transport error the
log is empty and nothing reaches the caller. -/
theorem delete_error_unlogged_counterexample :
    (repoCreateOrUpdate "c" true false (fun n => n) (⟨none, 0⟩ : KObj Nat)
        ⟨some ⟨none, 0⟩, none, none, some .transport⟩).logs = []
    ∧ (repoCreateOrUpdate "c" true false (fun n => n) (⟨none, 0⟩ : KObj Nat)
        ⟨some ⟨none, 0⟩, none, none, some .transport⟩).deletes = 1
    ∧ (repoCreateOrUpdate "c" true false (fun n => n) (⟨none, 0⟩ : KObj Nat)
        ⟨some ⟨none, 0⟩, none, none, some .transport⟩).outcome = .deleted false := by
  refine ⟨by decide, by decide, by decide⟩

/-- C8, amended: an apply with the delete flag set issues exactly one
delete of the live object and nothing else; every delete failure -
not-found and transport alike - is swallowed without logging or
propagation (the wrapper returns no error at all), and "deleted" is
logged only when the delete succeeded. -/
theorem delete_is_best_effort [DecidableEq σ] (cr : String) (retain : Bool)
    (f : σ → σ) (zero : KObj σ) (env : ClientEnv σ) :
    (repoCreateOrUpdate cr true retain f zero env).deletes = 1
    ∧ (repoCreateOrUpdate cr true retain f zero env).gets = 0
    ∧ (repoCreateOrUpdate cr true retain f zero env).creates = 0
    ∧ (repoCreateOrUpdate cr true retain f zero env).updates = 0
    ∧ (repoCreateOrUpdate cr true retain f zero env).logs
      = (if env.deleteErr.isNone then ["deleted"] else [])
    ∧ (repoCreateOrUpdate cr true retain f zero env).outcome
      = .deleted env.deleteErr.isNone := by
  refine ⟨rfl, rfl, rfl, rfl, rfl, rfl⟩

/-- C2: a "not found" instance fetch removes the key from the registry,
issues the best-effort shared-resource deletes (cluster-agent ClusterRole
and ClusterRoleBinding) exactly when the registry is empty after the
removal, returns the zero result with the delete outcomes discarded; and
over a registry of N distinct keys, processing "not found" passes for all
N keys in turn triggers no shared delete on the first N-1 passes and
triggers it on the Nth. -/
theorem lastOwner_shared_resource_gc (reg : Finset String) (req : String)
    (dr : Option ApiError × Option ApiError) (ks : List String)
    (hnd : ks.Nodup) (hne : ¬(ks = [])) :
    (reconcileNotFound reg req dr).1 = reg.erase req
    ∧ ((reconcileNotFound reg req dr).2.1 = true ↔ reg.erase req = ∅)
    ∧ (reconcileNotFound reg req dr).2.2 = zeroResult
    ∧ (reconcileNotFoundRun ks.toFinset ks).2
      = List.replicate (ks.length - 1) false ++ [true] := by
  refine ⟨rfl, by simp [reconcileNotFound], rfl, ?_⟩
  induction ks with
  | nil => exact absurd rfl hne
  | cons k ks ih =>
    have hk : ¬(k ∈ ks) := (List.nodup_cons.mp hnd).1
    have hnd2 : ks.Nodup := (List.nodup_cons.mp hnd).2
    cases ks with
    | nil =>
      simp [reconcileNotFoundRun, reconcileNotFound]
    | cons k2 ks2 =>
      have herase : ((k :: k2 :: ks2).toFinset : Finset String).erase k
          = (k2 :: ks2).toFinset := by
        rw [List.toFinset_cons]
        exact Finset.erase_insert (by simpa using hk)
      have hflag : ¬(((k2 :: ks2).toFinset : Finset String) = ∅) := by simp
      have ihr := ih hnd2 (by simp)
      have hstep : (reconcileNotFoundRun (k :: k2 :: ks2).toFinset (k :: k2 :: ks2)).2
          = decide (((k :: k2 :: ks2).toFinset : Finset String).erase k = ∅)
            :: (reconcileNotFoundRun
                (((k :: k2 :: ks2).toFinset : Finset String).erase k) (k2 :: ks2)).2 := rfl
      rw [hstep, herase, decide_eq_false hflag, ihr]
      simp [List.replicate_succ]

/-- Witness for C2 at a concrete registry and a three-instance run. -/
theorem lastOwner_shared_resource_gc_witness :
    (reconcileNotFound ({"x", "y"} : Finset String) "x" (some .transport, none)).1
      = ({"x", "y"} : Finset String).erase "x"
    ∧ ((reconcileNotFound ({"x", "y"} : Finset String) "x" (some .transport, none)).2.1 = true
      ↔ ({"x", "y"} : Finset String).erase "x" = ∅)
    ∧ (reconcileNotFound ({"x", "y"} : Finset String) "x" (some .transport, none)).2.2
      = zeroResult
    ∧ (reconcileNotFoundRun (["a", "b", "c"] : List String).toFinset ["a", "b", "c"]).2
      = List.replicate ((["a", "b", "c"] : List String).length - 1) false ++ [true] :=
  lastOwner_shared_resource_gc {"x", "y"} "x" (some .transport, none)
    ["a", "b", "c"] (by decide) (by decide)

/-- C3: against an unmodified live object, the engine updates exactly when
the mutated (merged) object differs from the live one, and a second apply
of the same descriptor (the same mutate function, idempotent on the spec)
is a pure no-op: the create-or-update result is the no-op result, the
stored object is untouched, and no create, update or log happens. -/
theorem apply_idempotent [DecidableEq σ] (cr : String) (retain : Bool)
    (f : σ → σ) (l zero l1 : KObj σ)
    (hid : f (f l.spec) = f l.spec)
    (h1 : (repoCreateOrUpdate cr false retain f zero
      ⟨some l, none, none, none⟩).stored = some l1) :
    (repoCreateOrUpdate cr false retain f zero ⟨some l, none, none, none⟩).updates
      = (if ownerMutate cr retain f l = l then 0 else 1)
    ∧ repoCreateOrUpdate cr false retain f zero ⟨some l1, none, none, none⟩
      = ⟨.op .unchanged, some l1, [], 1, 0, 0, 0⟩ := by
  have hidem : ownerMutate cr retain f (ownerMutate cr retain f l)
      = ownerMutate cr retain f l := ownerMutate_idem cr retain f l hid
  by_cases hm : ownerMutate cr retain f l = l
  · simp [repoCreateOrUpdate, hm] at h1 ⊢
    rw [← h1, hm]
  · simp [repoCreateOrUpdate, hm] at h1 ⊢
    rw [← h1]
    simp [hidem]

/-- Witness for C3 at a concrete live object and mutate function. -/
theorem apply_idempotent_witness :
    (repoCreateOrUpdate "c" false false (fun _ => 7) (⟨none, 0⟩ : KObj Nat)
        ⟨some ⟨none, 3⟩, none, none, none⟩).updates
      = (if ownerMutate "c" false (fun _ => 7) (⟨none, 3⟩ : KObj Nat) = ⟨none, 3⟩ then 0 else 1)
    ∧ repoCreateOrUpdate "c" false false (fun _ => 7) (⟨none, 0⟩ : KObj Nat)
        ⟨some ⟨some "c", 7⟩, none, none, none⟩
      = ⟨.op .unchanged, some ⟨some "c", 7⟩, [], 1, 0, 0, 0⟩ :=
  apply_idempotent "c" false (fun _ => 7) ⟨none, 3⟩ ⟨none, 0⟩ ⟨some "c", 7⟩
    (by decide) (by decide)

/-- C4, counterexample: the claim says a retain=false apply always leaves
the resulting object with a controller owner reference to the applying
instance, but when the fetched live object is already controlled by a
different instance, `controllerutil.SetControllerReference` refuses with
an `AlreadyOwnedError` (which the wrapper discards via `_ =`) and the
foreign owner stays in place: the written object carries no reference to
the applying instance. -/
theorem ownership_foreign_owner_counterexample :
    (repoCreateOrUpdate "c" false false (fun _ => 7) (⟨none, 0⟩ : KObj Nat)
        ⟨some ⟨some "o", 3⟩, none, none, none⟩).stored = some ⟨some "o", 7⟩
    ∧ ¬((⟨some "o", 7⟩ : KObj Nat).ownerRef = some "c") := by
  refine ⟨by decide, by decide⟩

/-- C4, amended: on a successful non-delete apply, when neither the
templated zero object nor the fetched live object is already controlled by
a different instance, the persisted object carries a controller owner
reference to the owning instance exactly when `retain` is false (a live
object owned by a foreign controller instead keeps that owner, the
attachment error being discarded); and the cluster-scoped RBAC wrappers
(`CreateOrUpdateClusterRole`, `CreateOrUpdateClusterRoleBinding`) always
apply with retain=true, so starting from an unowned templated object (and
a live object owned by nobody or by the applying instance itself, the only
states these wrappers produce) the stored ClusterRole and
ClusterRoleBinding never carry an owner reference. -/
theorem retain_controls_ownership {σ ρ β : Type}
    [DecidableEq σ] [DecidableEq ρ] [DecidableEq β]
    (cr : String) (retain : Bool) (f : σ → σ) (zero : KObj σ)
    (live : Option (KObj σ)) (de : Option ApiError) (o : KObj σ)
    (rules zr s : ρ) (lo : Option String) (zb sb : β) (lb : Option String)
    (ho : (repoCreateOrUpdate cr false retain f zero ⟨live, none, none, de⟩).stored
      = some o)
    (hzero : zero.ownerRef = none ∨ zero.ownerRef = some cr)
    (hlive : ∀ l, live = some l → (l.ownerRef = none ∨ l.ownerRef = some cr))
    (hlo : lo = none ∨ lo = some cr) (hlb : lb = none ∨ lb = some cr) :
    (o.ownerRef = some cr ↔ retain = false)
    ∧ (CreateOrUpdateClusterRole cr rules ⟨none, zr⟩
        ⟨some ⟨lo, s⟩, none, none, none⟩).stored = some ⟨none, rules⟩
    ∧ (CreateOrUpdateClusterRole cr rules ⟨none, zr⟩
        ⟨none, none, none, none⟩).stored = some ⟨none, rules⟩
    ∧ (CreateOrUpdateClusterRoleBinding cr ⟨none, zb⟩
        ⟨some ⟨lb, sb⟩, none, none, none⟩).stored = some ⟨none, sb⟩
    ∧ (CreateOrUpdateClusterRoleBinding cr ⟨none, zb⟩
        ⟨none, none, none, none⟩).stored = some ⟨none, zb⟩ := by
  obtain ⟨x, hxsrc, hx⟩ := stored_is_ownerMutate cr retain f zero live de o ho
  refine ⟨?_, ?_, ?_, ?_, ?_⟩
  · subst hx
    cases retain with
    | false =>
      have hxo : x.ownerRef = none ∨ x.ownerRef = some cr := by
        rcases hxsrc with h | h
        · rw [h]
          exact hzero
        · exact hlive x h
      simp [ownerMutate_ownerRef_of_not_retain cr f x hxo]
    | true => simp [ownerMutate_ownerRef_of_retain cr f x]
  · rcases hlo with h | h <;>
      subst h <;>
      by_cases hs : rules = s <;>
      simp [CreateOrUpdateClusterRole, repoCreateOrUpdate, ownerMutate,
        removeControllerReference, hs]
  · simp [CreateOrUpdateClusterRole, repoCreateOrUpdate, ownerMutate,
      removeControllerReference]
  · rcases hlb with h | h <;>
      subst h <;>
      simp [CreateOrUpdateClusterRoleBinding, repoCreateOrUpdate, ownerMutate,
        removeControllerReference]
  · simp [CreateOrUpdateClusterRoleBinding, repoCreateOrUpdate, ownerMutate,
      removeControllerReference]

/-- Witness for C4 at a concrete apply with retain=false over an unowned
live object. -/
theorem retain_controls_ownership_witness :
    ((⟨some "c", 7⟩ : KObj Nat).ownerRef = some "c" ↔ false = false)
    ∧ (CreateOrUpdateClusterRole "c" (5 : Nat) ⟨none, 0⟩
        ⟨some ⟨none, 4⟩, none, none, none⟩).stored = some ⟨none, 5⟩
    ∧ (CreateOrUpdateClusterRole "c" (5 : Nat) ⟨none, 0⟩
        ⟨none, none, none, none⟩).stored = some ⟨none, 5⟩
    ∧ (CreateOrUpdateClusterRoleBinding "c" (⟨none, 2⟩ : KObj Nat)
        ⟨some ⟨none, 9⟩, none, none, none⟩).stored = some ⟨none, 9⟩
    ∧ (CreateOrUpdateClusterRoleBinding "c" (⟨none, 2⟩ : KObj Nat)
        ⟨none, none, none, none⟩).stored = some ⟨none, 2⟩ :=
  retain_controls_ownership "c" false (fun _ => 7) ⟨none, 0⟩
    (some ⟨none, 3⟩) none ⟨some "c", 7⟩ 5 0 4 none 2 9 none
    (by decide) (Or.inl rfl)
    (by intro l hl; injection hl with h; subst h; exact Or.inl rfl)
    (Or.inl rfl) (Or.inl rfl)

/-- C5: the StatefulSet mutate closure restores the fetched (live) volume
claim templates verbatim after the merge, whatever the merge function and
the desired descriptor's templates are, while every other spec field is
exactly the merge of the desired spec into the fetched one; consequently
on an update the persisted StatefulSet keeps the live object's templates. -/
theorem statefulSet_templates_preserved {τ ρ : Type}
    [DecidableEq τ] [DecidableEq ρ]
    (merge : SSSpec τ ρ → SSSpec τ ρ → SSSpec τ ρ)
    (desired fetched : SSSpec τ ρ) (cr : String)
    (l zero o : KObj (SSSpec τ ρ))
    (ho : (repoCreateOrUpdate cr false false (statefulSetMutate merge desired) zero
      ⟨some l, none, none, none⟩).stored = some o) :
    (statefulSetMutate merge desired fetched).volumeClaimTemplates
      = fetched.volumeClaimTemplates
    ∧ (statefulSetMutate merge desired fetched).rest = (merge fetched desired).rest
    ∧ o.spec.volumeClaimTemplates = l.spec.volumeClaimTemplates := by
  refine ⟨rfl, rfl, ?_⟩
  by_cases hm : ownerMutate cr false (statefulSetMutate merge desired) l = l
  · simp [repoCreateOrUpdate, hm] at ho
    rw [← ho]
  · simp [repoCreateOrUpdate, hm] at ho
    rw [← ho, ownerMutate_spec]
    rfl

/-- C1: for every secret (name, key): when the key is already present in
the fetched secret's data the call returns the stored value unchanged and
leaves the data untouched, whatever length is requested; when the key is
absent the freshly generated value of the requested length is stored under
the key and returned; and two passes over the same secret and key return
the identical value, even when the second pass would draw a different
fresh value of a different length. -/
theorem secret_provisioned_once (cr key v fresh1 fresh2 : String) (len : Nat)
    (L : Option (KObj (Option SecretData))) (own2 : Option String)
    (d2 : SecretData)
    (hpresent : ((fetchedSecretData L).getD []).lookup key = some v)
    (habsent : d2.lookup key = none)
    (hlen : fresh1.length = len) :
    (CreateOrUpdateSecret cr ⟨L, none, none, none⟩ key fresh1).2 = v
    ∧ ((CreateOrUpdateSecret cr ⟨L, none, none, none⟩ key fresh1).1.stored.map KObj.spec)
      = some (some ((fetchedSecretData L).getD []))
    ∧ (CreateOrUpdateSecret cr ⟨some ⟨own2, some d2⟩, none, none, none⟩ key fresh1).2
      = fresh1
    ∧ ((CreateOrUpdateSecret cr ⟨some ⟨own2, some d2⟩, none, none, none⟩ key fresh1).2).length
      = len
    ∧ ((CreateOrUpdateSecret cr
          ⟨some ⟨own2, some d2⟩, none, none, none⟩ key fresh1).1.stored.map KObj.spec)
      = some (some ((key, fresh1) :: d2))
    ∧ (CreateOrUpdateSecret cr
        ⟨(CreateOrUpdateSecret cr ⟨L, none, none, none⟩ key fresh1).1.stored,
          none, none, none⟩ key fresh2).2
      = (CreateOrUpdateSecret cr ⟨L, none, none, none⟩ key fresh1).2 := by
  have habs2 : (CreateOrUpdateSecret cr
      ⟨some ⟨own2, some d2⟩, none, none, none⟩ key fresh1).2 = fresh1 := by
    simp [CreateOrUpdateSecret, secretReturn, fetchedSecretData, habsent]
  have hmut2 : secretMutateData key fresh1 (some d2)
      = some ((key, fresh1) :: d2) := by
    simp [secretMutateData, habsent]
  have hm2 : ¬(ownerMutate cr false (secretMutateData key fresh1) ⟨own2, some d2⟩
      = ⟨own2, some d2⟩) := by
    intro h
    have hs := congrArg KObj.spec h
    rw [ownerMutate_spec] at hs
    simp [hmut2] at hs
  refine ⟨?_, ?_, habs2, by rw [habs2, hlen], ?_, ?_⟩
  · simp [CreateOrUpdateSecret, secretReturn, hpresent]
  · cases L with
    | none => simp [fetchedSecretData] at hpresent
    | some o =>
      obtain ⟨own0, dd⟩ := o
      cases dd with
      | none => simp [fetchedSecretData] at hpresent
      | some d0 =>
        simp only [fetchedSecretData, Option.getD_some] at hpresent ⊢
        have hmut : secretMutateData key fresh1 (some d0) = some d0 := by
          simp [secretMutateData, hpresent]
        by_cases hm : ownerMutate cr false (secretMutateData key fresh1) ⟨own0, some d0⟩
            = ⟨own0, some d0⟩
        · simp [CreateOrUpdateSecret, repoCreateOrUpdate, hm]
        · simp [CreateOrUpdateSecret, repoCreateOrUpdate, hm, ownerMutate_spec, hmut]
  · simp [CreateOrUpdateSecret, repoCreateOrUpdate, hm2, ownerMutate_spec, hmut2]
  · obtain ⟨d1, hst, hlk⟩ := secret_pass_stores_returned cr key fresh1 L
    obtain ⟨o1, ho1, hos1⟩ := Option.map_eq_some'.mp hst
    rw [ho1]
    simp [CreateOrUpdateSecret, secretReturn, fetchedSecretData, hos1, hlk]

/-- Witness for C1 at a concrete secret: key "password" already stored as
"abc", an absent-key pass over data [("user", "u")], and a two-pass chain. -/
theorem secret_provisioned_once_witness :
    (CreateOrUpdateSecret "c"
        ⟨some ⟨none, some [("password", "abc")]⟩, none, none, none⟩ "password" "xyz").2
      = "abc"
    ∧ ((CreateOrUpdateSecret "c"
        ⟨some ⟨none, some [("password", "abc")]⟩, none, none, none⟩
        "password" "xyz").1.stored.map KObj.spec)
      = some (some ((fetchedSecretData
          (some ⟨none, some [("password", "abc")]⟩)).getD []))
    ∧ (CreateOrUpdateSecret "c"
        ⟨some ⟨none, some [("user", "u")]⟩, none, none, none⟩ "password" "xyz").2
      = "xyz"
    ∧ ((CreateOrUpdateSecret "c"
        ⟨some ⟨none, some [("user", "u")]⟩, none, none, none⟩ "password" "xyz").2).length
      = 3
    ∧ ((CreateOrUpdateSecret "c"
        ⟨some ⟨none, some [("user", "u")]⟩, none, none, none⟩
        "password" "xyz").1.stored.map KObj.spec)
      = some (some [("password", "xyz"), ("user", "u")])
    ∧ (CreateOrUpdateSecret "c"
        ⟨(CreateOrUpdateSecret "c"
            ⟨some ⟨none, some [("password", "abc")]⟩, none, none, none⟩
            "password" "xyz").1.stored, none, none, none⟩ "password" "uvw").2
      = (CreateOrUpdateSecret "c"
          ⟨some ⟨none, some [("password", "abc")]⟩, none, none, none⟩ "password" "xyz").2 :=
  secret_provisioned_once "c" "password" "abc" "xyz" "uvw" 3
    (some ⟨none, some [("password", "abc")]⟩) none [("user", "u")]
    (by decide) (by decide) (by decide)

/-- Witness for C5 at a concrete merge function and live object. -/
theorem statefulSet_templates_preserved_witness :
    (statefulSetMutate (fun _ b => b) (⟨9, 4⟩ : SSSpec Nat Nat) ⟨1, 2⟩).volumeClaimTemplates
      = (⟨1, 2⟩ : SSSpec Nat Nat).volumeClaimTemplates
    ∧ (statefulSetMutate (fun _ b => b) (⟨9, 4⟩ : SSSpec Nat Nat) ⟨1, 2⟩).rest
      = ((fun _ b => b) (⟨1, 2⟩ : SSSpec Nat Nat) (⟨9, 4⟩ : SSSpec Nat Nat)).rest
    ∧ (⟨some "c", ⟨5, 4⟩⟩ : KObj (SSSpec Nat Nat)).spec.volumeClaimTemplates
      = (⟨none, ⟨5, 6⟩⟩ : KObj (SSSpec Nat Nat)).spec.volumeClaimTemplates :=
  statefulSet_templates_preserved (fun _ b => b) ⟨9, 4⟩ ⟨1, 2⟩ "c"
    ⟨none, ⟨5, 6⟩⟩ ⟨none, ⟨0, 0⟩⟩ ⟨some "c", ⟨5, 4⟩⟩ (by decide)

end CorootOperator
